import Mathlib

/-
Verification of the navigation-assistant repository: a shallow embedding of
the voice notification manager (src/audio/tts_engine.py), the zone detector
(src/utils/zone_detector.py), the video recorder (src/utils/video_recorder.py)
and the video processor thread (src/core/video_processor.py), together with
theorems settling the behavioural claims about them.

Modelling conventions: wall-clock timestamps (Python time.time() floats) are
modelled as integers (clock ticks); comparisons and subtraction are the only
operations the code performs on them, so the linear order is all that matters.
Python dictionaries keyed by strings are modelled as functions
String to Option Int; Python sets of strings as functions String to Bool.
Python integer floor division is Int.fdiv. Fallible operations return Except.
-/

/-! ### VoiceNotificationManager (src/src/audio/tts_engine.py) -/

/-- State of VoiceNotificationManager: cooldown (seconds), the
last_spoken_time dictionary and the spoken_objects set. -/
structure NotifState where
  cooldown : Int
  last_spoken_time : String → Option Int
  spoken_objects : String → Bool

/-- The reserved dictionary key recording the last no-detection announcement. -/
def no_detection_id : String := "no_detection"

/-- The fixed no-detection announcement text. -/
def no_detection_message : String := "Aucun objet détecté"

/-- object_zone_id built in announce_detection: the Python f-string
f"\x7bclass_name\x7d_\x7bzone\x7d". -/
def object_zone_id (class_name zone : String) : String :=
  class_name ++ "_" ++ zone

/-- The message built by announce_detection: the count prefix when count > 1,
then the class name, then the zone suffix when include_zone is set. -/
def detection_message (class_name zone : String)
    (include_zone : Bool) (count : Nat) : String :=
  (if count > 1 then toString count ++ " " ++ class_name else class_name) ++
    (if include_zone then (" à " ++ zone) else (""))

/-- The early-return condition of announce_detection: the key is present in
last_spoken_time and less than cooldown has elapsed since its timestamp. -/
def cooldown_suppressed (s : NotifState) (oid : String) (current_time : Int) : Bool :=
  match s.last_spoken_time oid with
  | some last => decide (current_time - last < s.cooldown)
  | none => false

/-- The state written by announce_detection when it speaks: the key maps to
current_time in last_spoken_time and is added to spoken_objects. -/
def announce_fire_state (s : NotifState) (oid : String) (current_time : Int) : NotifState :=
  { s with
    last_spoken_time := fun k =>
      if k = oid then some current_time else s.last_spoken_time k,
    spoken_objects := fun k =>
      if k = oid then true else s.spoken_objects k }

/-- VoiceNotificationManager.announce_detection. Returns the message handed to
tts_engine.speak (none when the cooldown suppresses it) and the new state. -/
def announce_detection (s : NotifState) (class_name zone : String)
    (include_zone : Bool) (count : Nat) (current_time : Int) :
    Option String × NotifState :=
  let oid := object_zone_id class_name zone
  if cooldown_suppressed s oid current_time then
    (none, s)
  else
    (some (detection_message class_name zone include_zone count),
     announce_fire_state s oid current_time)

/-- The firing condition of announce_no_detection: the no_detection key is
absent from last_spoken_time, or strictly more than cooldown has elapsed. -/
def no_detection_due (s : NotifState) (current_time : Int) : Bool :=
  match s.last_spoken_time no_detection_id with
  | none => true
  | some last => decide (current_time - last > s.cooldown)

/-- VoiceNotificationManager.announce_no_detection. When due, speaks the fixed
message, records the timestamp under the no_detection key and clears the
spoken_objects set; otherwise does nothing. -/
def announce_no_detection (s : NotifState) (current_time : Int) :
    Option String × NotifState :=
  if no_detection_due s current_time then
    (some no_detection_message,
     { s with
       last_spoken_time := fun k =>
         if k = no_detection_id then some current_time else s.last_spoken_time k,
       spoken_objects := fun _ => false })
  else
    (none, s)

/-- VoiceNotificationManager.cleanup_old_objects: removes from
last_spoken_time every key other than no_detection_id that is not among the
currently detected object-zone ids. -/
def cleanup_old_objects (s : NotifState) (current_objects : String → Bool) : NotifState :=
  { s with
    last_spoken_time := fun k =>
      if k ≠ no_detection_id ∧ current_objects k = false then none
      else s.last_spoken_time k }

/-- VoiceNotificationManager.reset: clears all tracking. -/
def notif_reset (s : NotifState) : NotifState :=
  { s with
    last_spoken_time := fun _ => none,
    spoken_objects := fun _ => false }

/-! ### ZoneDetector (src/src/utils/zone_detector.py) -/

/-- The three spatial zones returned by ZoneDetector.get_zone. -/
inductive Zone
  | gauche
  | milieu
  | droite
deriving DecidableEq

/-- State of ZoneDetector: frame width, division count and the two boundaries. -/
structure ZoneDetector where
  frame_width : Int
  divisions : Int
  left_boundary : Int
  right_boundary : Int
deriving DecidableEq

/-- ZoneDetector.update_boundaries: left_boundary = frame_width // 3,
right_boundary = 2 * frame_width // 3 (Python floor division). -/
def update_boundaries (s : ZoneDetector) (frame_width : Int) : ZoneDetector :=
  { s with
    frame_width := frame_width,
    left_boundary := Int.fdiv frame_width 3,
    right_boundary := Int.fdiv (2 * frame_width) 3 }

/-- ZoneDetector.__init__: stores width and divisions, then computes the
boundaries with update_boundaries. -/
def ZoneDetector.init (frame_width : Int) (divisions : Int) : ZoneDetector :=
  update_boundaries
    { frame_width := frame_width, divisions := divisions,
      left_boundary := 0, right_boundary := 0 }
    frame_width

/-- A bounding box (x1, y1, x2, y2). -/
structure BBox where
  x1 : Int
  y1 : Int
  x2 : Int
  y2 : Int
deriving DecidableEq

/-- ZoneDetector.get_zone: derives center_x from the bbox when only a bbox is
given, defaults to milieu with no positional input, and otherwise compares
center_x against the boundaries. -/
def get_zone (s : ZoneDetector) (bbox : Option BBox) (center_x : Option Int) : Zone :=
  let cx : Option Int :=
    match center_x, bbox with
    | none, some b => some (Int.fdiv (b.x1 + b.x2) 2)
    | c, _ => c
  match cx with
  | none => Zone.milieu
  | some c =>
    if c < s.left_boundary then Zone.gauche
    else if c > s.right_boundary then Zone.droite
    else Zone.milieu

/-! ### VideoRecorder (src/src/utils/video_recorder.py) -/

/-- State of VideoRecorder: the writer handle (present or not), output path,
recording flag, frame count and start time. -/
structure RecorderState where
  writer : Option Unit
  output_path : Option String
  is_recording_flag : Bool
  frame_count : Nat
  start_time : Option Int
deriving DecidableEq

/-- VideoRecorder.start_recording. new_path abstracts the timestamped file
name and writer_opens the success of cv2.VideoWriter; the RuntimeError raised
when the writer fails to open is the error branch (carrying the state the
Python code has mutated by that point). When already recording, returns the
existing output path and leaves the state untouched. -/
def start_recording (s : RecorderState) (new_path : String) (now : Int)
    (writer_opens : Bool) : Except RecorderState (Option String × RecorderState) :=
  if s.is_recording_flag then
    Except.ok (s.output_path, s)
  else
    let s1 := { s with output_path := some new_path, writer := some () }
    if writer_opens then
      Except.ok (some new_path,
        { s1 with is_recording_flag := true, frame_count := 0, start_time := some now })
    else
      Except.error s1

/-- VideoRecorder.write_frame. write_succeeds abstracts whether the underlying
cv2 write raises; the try/except makes the result a total boolean: False when
not recording or no writer, True with the count incremented on success, False
with the state unchanged when the write fails. -/
def write_frame (s : RecorderState) (write_succeeds : Bool) : Bool × RecorderState :=
  if s.is_recording_flag = false ∨ s.writer = none then
    (false, s)
  else if write_succeeds then
    (true, { s with frame_count := s.frame_count + 1 })
  else
    (false, s)

/-- VideoRecorder.stop_recording: when inactive returns (None, 0, 0.0) and
changes nothing; otherwise returns the session result and resets the state. -/
def stop_recording (s : RecorderState) (now : Int) :
    (Option String × Nat × Int) × RecorderState :=
  if s.is_recording_flag = false then
    ((none, 0, 0), s)
  else
    let duration : Int :=
      match s.start_time with
      | some st => now - st
      | none => 0
    ((s.output_path, s.frame_count, duration),
     { writer := none, output_path := none, is_recording_flag := false,
       frame_count := 0, start_time := none })

/-! ### VideoProcessorThread (src/src/core/video_processor.py) -/

/-- The three video sources of set_source. -/
inductive SourceType
  | webcam
  | external_camera
  | file
deriving DecidableEq

/-- What the read loop does after cap.read() returns ret = False. -/
inductive ReadFailureAction
  | continueAtFrameZero
  | exitLoop
deriving DecidableEq

/-- The branch on source_type when a frame read fails: file sources rewind the
capture to frame 0 and continue; live sources break out of the loop. -/
def handle_read_failure (source_type : SourceType) : ReadFailureAction :=
  if source_type = SourceType.file then ReadFailureAction.continueAtFrameZero
  else ReadFailureAction.exitLoop

/-- The observable events driving one run of the processing loop. -/
inductive StreamEvent
  | frameRead
  | readFailure
  | stopRequest
  | exceptionRaised

/-- How the while loop in run() was exited. -/
inductive ExitReason
  | stopRequested
  | streamEnded
  | exceptionRaised
deriving DecidableEq

/-- Result of the read loop: exit reason, frames emitted, capture position. -/
structure LoopExit where
  reason : ExitReason
  emitted : Nat
  pos : Nat
deriving DecidableEq

/-- The while-running loop of VideoProcessorThread.run, driven by a finite
event trace (an exhausted trace stands for an external stop request clearing
self.running). A successful read emits the frame and advances the position; a
failed read rewinds to frame 0 for file sources and ends the loop for live
sources; an exception propagates out of the loop body. -/
def run_loop (source_type : SourceType) :
    List StreamEvent → Nat → Nat → LoopExit
  | [], emitted, pos => ⟨ExitReason.stopRequested, emitted, pos⟩
  | e :: es, emitted, pos =>
    match e with
    | StreamEvent.frameRead => run_loop source_type es (emitted + 1) (pos + 1)
    | StreamEvent.readFailure =>
      match handle_read_failure source_type with
      | ReadFailureAction.continueAtFrameZero => run_loop source_type es emitted 0
      | ReadFailureAction.exitLoop => ⟨ExitReason.streamEnded, emitted, pos⟩
    | StreamEvent.stopRequest => ⟨ExitReason.stopRequested, emitted, pos⟩
    | StreamEvent.exceptionRaised => ⟨ExitReason.exceptionRaised, emitted, pos⟩

/-- Final state of VideoProcessorThread.run after its finally block. -/
structure RunResult where
  opened : Bool
  cap_released : Bool
  running : Bool
  loop_exit : Option LoopExit
deriving DecidableEq

/-- VideoProcessorThread.run: open the source, loop, and in the finally block
release the capture when one was opened and clear running — on every exit
path, exceptions included. -/
def run_thread (source_type : SourceType) (open_succeeds : Bool)
    (events : List StreamEvent) : RunResult :=
  if open_succeeds then
    { opened := true, cap_released := true, running := false,
      loop_exit := some (run_loop source_type events 0 0) }
  else
    { opened := false, cap_released := false, running := false, loop_exit := none }

/-- VideoProcessorThread FPS tracking state. The instantaneous rate is a
rational; timestamps are integer clock ticks. -/
structure FpsState where
  frame_rate : ℚ
  last_time : Int
  frame_count : Nat

/-- VideoProcessorThread._update_fps: divide only when the delta since the
previous frame is strictly positive, then unconditionally record the current
time and bump the frame counter. Returns the new state and the emitted rate. -/
def update_fps (s : FpsState) (current_time : Int) : FpsState × Option ℚ :=
  if current_time - s.last_time > 0 then
    let fr : ℚ := 1 / ((current_time - s.last_time : Int) : ℚ)
    ({ frame_rate := fr, last_time := current_time, frame_count := s.frame_count + 1 },
     some fr)
  else
    ({ s with last_time := current_time, frame_count := s.frame_count + 1 }, none)

/-! ### Helper lemmas and concrete states -/

lemma announce_detection_eq_fire (s : NotifState) (class_name zone : String)
    (iz : Bool) (n : Nat) (t : Int)
    (h : ((announce_detection s class_name zone iz n t).1).isSome = true) :
    announce_detection s class_name zone iz n t
      = (some (detection_message class_name zone iz n),
         announce_fire_state s (object_zone_id class_name zone) t) := by
  by_cases hs : cooldown_suppressed s (object_zone_id class_name zone) t
  · simp [announce_detection, hs] at h
  · simp [announce_detection, hs]

lemma fire_state_lookup (s : NotifState) (oid : String) (t : Int) :
    (announce_fire_state s oid t).last_spoken_time oid = some t := by
  simp [announce_fire_state]

lemma suppressed_after_fire (s : NotifState) (oid : String) (t t2 : Int) :
    cooldown_suppressed (announce_fire_state s oid t) oid t2
      = decide (t2 - t < s.cooldown) := by
  simp [cooldown_suppressed, announce_fire_state]

def person_class : String := "person"

def gauche_zone : String := "gauche"

def notif_demo_init : NotifState :=
  { cooldown := 5, last_spoken_time := fun _ => none, spoken_objects := fun _ => false }

def notif_nd_state : NotifState :=
  { cooldown := 5,
    last_spoken_time := fun k => if k = no_detection_id then some 0 else none,
    spoken_objects := fun _ => false }

def notif_both_state : NotifState :=
  { cooldown := 5,
    last_spoken_time := fun k =>
      if k = no_detection_id then some 0
      else if k = object_zone_id person_class gauche_zone then some 0
      else none,
    spoken_objects := fun _ => false }

def c3_current_objects : String → Bool :=
  fun k => k == object_zone_id person_class gauche_zone

/-! ### Claims about the notification manager -/

/-- C1: the spec claims that a no-detection announcement clears all per-object
dedup state so that a reappearing object is announced immediately. The code
clears only the never-read spoken_objects set: after announcing person in
gauche at t = 0 and firing the no-detection announcement at t = 1
(cooldown 5), the spoken_objects set is cleared but last_spoken_time still
maps the person-gauche key to 0, so the person reappearing at t = 2 is
silently suppressed — contradicting the fresh-start intent stated by the spec
and by the code's own comment on the clearing line. -/
theorem announce_no_detection_keeps_object_timestamps :
    (announce_no_detection
        (announce_detection notif_demo_init person_class gauche_zone true 1 0).2 1).1
      = some no_detection_message ∧
    ((announce_no_detection
        (announce_detection notif_demo_init person_class gauche_zone true 1 0).2 1).2).last_spoken_time
        no_detection_id = some 1 ∧
    ((announce_no_detection
        (announce_detection notif_demo_init person_class gauche_zone true 1 0).2 1).2).spoken_objects
        (object_zone_id person_class gauche_zone) = false ∧
    ((announce_no_detection
        (announce_detection notif_demo_init person_class gauche_zone true 1 0).2 1).2).last_spoken_time
        (object_zone_id person_class gauche_zone) = some 0 ∧
    (announce_detection
        ((announce_no_detection
            (announce_detection notif_demo_init person_class gauche_zone true 1 0).2 1).2)
        person_class gauche_zone true 1 2).1 = none := by
  decide

/-- C2: cooldown property of announce_detection. If a (class, zone) key is
announced at time t, a second call for the same key at time t2 with
t2 - t < cooldown emits nothing and leaves the state (in particular the key's
recorded timestamp) unchanged, while a call with t2 - t ≥ cooldown emits the
message and records t2 as the key's new timestamp. -/
theorem announce_detection_cooldown_property
    (s : NotifState) (class_name zone : String) (iz : Bool) (n : Nat) (t : Int)
    (iz2 : Bool) (n2 : Nat) (t2 : Int)
    (hfired : ((announce_detection s class_name zone iz n t).1).isSome = true) :
    (t2 - t < s.cooldown →
       announce_detection (announce_detection s class_name zone iz n t).2
           class_name zone iz2 n2 t2
         = (none, (announce_detection s class_name zone iz n t).2)) ∧
    (s.cooldown ≤ t2 - t →
       (announce_detection (announce_detection s class_name zone iz n t).2
           class_name zone iz2 n2 t2).1
         = some (detection_message class_name zone iz2 n2) ∧
       ((announce_detection (announce_detection s class_name zone iz n t).2
           class_name zone iz2 n2 t2).2).last_spoken_time
           (object_zone_id class_name zone)
         = some t2) := by
  have he := announce_detection_eq_fire s class_name zone iz n t hfired
  rw [he]
  have hsup := suppressed_after_fire s (object_zone_id class_name zone) t t2
  constructor
  · intro hlt
    have hs : cooldown_suppressed
        (announce_fire_state s (object_zone_id class_name zone) t)
        (object_zone_id class_name zone) t2 = true := by
      rw [hsup]; exact decide_eq_true hlt
    simp [announce_detection, hs]
  · intro hge
    have hs : cooldown_suppressed
        (announce_fire_state s (object_zone_id class_name zone) t)
        (object_zone_id class_name zone) t2 = false := by
      rw [hsup]; simp; omega
    simp [announce_detection, hs, fire_state_lookup]

/-- C2 witness: announce person in gauche at t = 0 from the pristine state
(cooldown 5); the query at t = 3 is silent and leaves the state unchanged,
the query at t = 6 fires and records 6. -/
theorem announce_detection_cooldown_property_witness :
    (announce_detection
        (announce_detection notif_demo_init person_class gauche_zone true 1 0).2
        person_class gauche_zone true 1 3
      = (none, (announce_detection notif_demo_init person_class gauche_zone true 1 0).2)) ∧
    ((announce_detection
        (announce_detection notif_demo_init person_class gauche_zone true 1 0).2
        person_class gauche_zone true 1 6).1
      = some (detection_message person_class gauche_zone true 1)) ∧
    ((announce_detection
        (announce_detection notif_demo_init person_class gauche_zone true 1 0).2
        person_class gauche_zone true 1 6).2).last_spoken_time
        (object_zone_id person_class gauche_zone)
      = some 6 := by
  refine ⟨?_, ?_, ?_⟩
  · exact (announce_detection_cooldown_property notif_demo_init person_class gauche_zone
      true 1 0 true 1 3 (by decide)).1 (by decide)
  · exact ((announce_detection_cooldown_property notif_demo_init person_class gauche_zone
      true 1 0 true 1 6 (by decide)).2 (by decide)).1
  · exact ((announce_detection_cooldown_property notif_demo_init person_class gauche_zone
      true 1 0 true 1 6 (by decide)).2 (by decide)).2

/-- C3 counterexample: at the empty-to-non-empty transition the per-frame
processing (announce_detection for the new object followed by
cleanup_old_objects with the current object set) does not clear the recorded
no-detection timestamp: starting from a state whose no_detection key holds 0,
it still holds 0 afterwards. -/
theorem no_detection_state_not_cleared_cex :
    ¬ ((cleanup_old_objects
          (announce_detection notif_nd_state person_class gauche_zone true 1 1).2
          c3_current_objects).last_spoken_time no_detection_id = none) ∧
    (cleanup_old_objects
        (announce_detection notif_nd_state person_class gauche_zone true 1 1).2
        c3_current_objects).last_spoken_time no_detection_id = some 0 := by
  decide

/-- C3 amended: the no-detection announcement state is not cleared when
detections become non-empty — cleanup_old_objects explicitly preserves the
no_detection key and announce_detection writes only its own object-zone key —
so a later no-detection announcement fires exactly when strictly more than the
cooldown has elapsed since the old recorded no-detection timestamp. -/
theorem no_detection_state_preserved :
    (∀ (s : NotifState) (co : String → Bool),
        (cleanup_old_objects s co).last_spoken_time no_detection_id
          = s.last_spoken_time no_detection_id) ∧
    (∀ (s : NotifState) (class_name zone : String) (iz : Bool) (n : Nat) (t : Int),
        object_zone_id class_name zone ≠ no_detection_id →
        ((announce_detection s class_name zone iz n t).2).last_spoken_time no_detection_id
          = s.last_spoken_time no_detection_id) ∧
    (∀ (s : NotifState) (t t2 : Int),
        s.last_spoken_time no_detection_id = some t →
        (t2 - t ≤ s.cooldown → (announce_no_detection s t2).1 = none) ∧
        (s.cooldown < t2 - t →
          (announce_no_detection s t2).1 = some no_detection_message)) := by
  refine ⟨?_, ?_, ?_⟩
  · intro s co
    simp [cleanup_old_objects]
  · intro s class_name zone iz n t h
    by_cases hs : cooldown_suppressed s (object_zone_id class_name zone) t
    · simp [announce_detection, hs]
    · simp [announce_detection, hs, announce_fire_state, Ne.symm h]
  · intro s t t2 h
    have hdue : no_detection_due s t2 = decide (t2 - t > s.cooldown) := by
      simp [no_detection_due, h]
    constructor
    · intro hle
      have hd : no_detection_due s t2 = false := by
        rw [hdue]; simp; omega
      simp [announce_no_detection, hd]
    · intro hgt
      have hd : no_detection_due s t2 = true := by
        rw [hdue]; exact decide_eq_true hgt
      simp [announce_no_detection, hd]

/-- C3 amended witness: concrete instances of all three parts on the state
whose no_detection key holds 0 (cooldown 5): cleanup and announce_detection
preserve the key, the no-detection query at t = 5 is silent and at t = 6
fires. -/
theorem no_detection_state_preserved_witness :
    (cleanup_old_objects notif_nd_state c3_current_objects).last_spoken_time no_detection_id
      = notif_nd_state.last_spoken_time no_detection_id ∧
    ((announce_detection notif_nd_state person_class gauche_zone true 1 1).2).last_spoken_time
        no_detection_id
      = notif_nd_state.last_spoken_time no_detection_id ∧
    (announce_no_detection notif_nd_state 5).1 = none ∧
    (announce_no_detection notif_nd_state 6).1 = some no_detection_message := by
  refine ⟨?_, ?_, ?_, ?_⟩
  · exact no_detection_state_preserved.1 notif_nd_state c3_current_objects
  · exact no_detection_state_preserved.2.1 notif_nd_state person_class gauche_zone
      true 1 1 (by decide)
  · exact (no_detection_state_preserved.2.2 notif_nd_state 0 5 (by decide)).1 (by decide)
  · exact (no_detection_state_preserved.2.2 notif_nd_state 0 6 (by decide)).2 (by decide)

/-- C10: the cooldown boundary is asymmetric. With the no_detection key
recorded at t, announce_no_detection at exactly t + cooldown emits nothing
(strict greater-than test); with an object-zone key recorded at t,
announce_detection at exactly t + cooldown emits its message (strict
less-than suppression test). -/
theorem cooldown_boundary_asymmetry
    (s : NotifState) (t : Int) (class_name zone : String) (iz : Bool) (n : Nat)
    (hnd : s.last_spoken_time no_detection_id = some t)
    (hobj : s.last_spoken_time (object_zone_id class_name zone) = some t) :
    announce_no_detection s (t + s.cooldown) = (none, s) ∧
    (announce_detection s class_name zone iz n (t + s.cooldown)).1
      = some (detection_message class_name zone iz n) := by
  constructor
  · have hd : no_detection_due s (t + s.cooldown) = false := by
      simp [no_detection_due, hnd]
    simp [announce_no_detection, hd]
  · have hs : cooldown_suppressed s (object_zone_id class_name zone) (t + s.cooldown)
        = false := by
      simp [cooldown_suppressed, hobj]
    simp [announce_detection, hs]

/-- C10 witness: on the state holding both the no_detection key and the
person-gauche key at timestamp 0 with cooldown 5, the no-detection query at
t = 0 + 5 is silent while the detection query at t = 0 + 5 fires. -/
theorem cooldown_boundary_asymmetry_witness :
    announce_no_detection notif_both_state (0 + notif_both_state.cooldown)
      = (none, notif_both_state) ∧
    (announce_detection notif_both_state person_class gauche_zone true 1
        (0 + notif_both_state.cooldown)).1
      = some (detection_message person_class gauche_zone true 1) :=
  cooldown_boundary_asymmetry notif_both_state 0 person_class gauche_zone true 1
    (by decide) (by decide)

/-! ### Claims about the zone detector -/

/-- C4: zone classification is the pure boundary comparison — center_x below
the left boundary gives gauche, above the right boundary gives droite (the
boundaries being ordered, as every detector built by update_boundaries
satisfies), otherwise milieu; a bbox alone is classified through its derived
center floor((x1+x2)/2); no positional input defaults to milieu; and for frame
width 900 the boundaries are (300, 600) with 150 gauche, 450 milieu,
800 droite. -/
theorem get_zone_classification (s : ZoneDetector) (b : BBox) (c : Int) :
    (c < s.left_boundary → get_zone s none (some c) = Zone.gauche) ∧
    (s.left_boundary ≤ s.right_boundary → s.right_boundary < c →
        get_zone s none (some c) = Zone.droite) ∧
    (s.left_boundary ≤ c → c ≤ s.right_boundary →
        get_zone s none (some c) = Zone.milieu) ∧
    get_zone s (some b) none
      = get_zone s none (some (Int.fdiv (b.x1 + b.x2) 2)) ∧
    get_zone s none none = Zone.milieu ∧
    (ZoneDetector.init 900 3).left_boundary = 300 ∧
    (ZoneDetector.init 900 3).right_boundary = 600 ∧
    get_zone (ZoneDetector.init 900 3) none (some 150) = Zone.gauche ∧
    get_zone (ZoneDetector.init 900 3) none (some 450) = Zone.milieu ∧
    get_zone (ZoneDetector.init 900 3) none (some 800) = Zone.droite := by
  refine ⟨?_, ?_, ?_, ?_, ?_, by decide, by decide, by decide, by decide, by decide⟩
  · intro h
    simp [get_zone, h]
  · intro ho h
    have h1 : ¬ c < s.left_boundary := by omega
    simp [get_zone, h1, h]
  · intro h1 h2
    have h3 : ¬ c < s.left_boundary := by omega
    have h4 : ¬ s.right_boundary < c := by omega
    simp [get_zone, h3, h4]
  · rfl
  · rfl

/-- C4 witness: concrete classifications at frame width 900 — 150 is gauche,
800 is droite, 450 is milieu, and a bbox is classified through its derived
center. -/
theorem get_zone_classification_witness :
    get_zone (ZoneDetector.init 900 3) none (some 150) = Zone.gauche ∧
    get_zone (ZoneDetector.init 900 3) none (some 800) = Zone.droite ∧
    get_zone (ZoneDetector.init 900 3) none (some 450) = Zone.milieu ∧
    get_zone (ZoneDetector.init 900 3) (some ⟨100, 0, 201, 0⟩) none
      = get_zone (ZoneDetector.init 900 3) none (some (Int.fdiv (100 + 201) 2)) := by
  refine ⟨?_, ?_, ?_, ?_⟩
  · exact (get_zone_classification (ZoneDetector.init 900 3) ⟨100, 0, 201, 0⟩ 150).1
      (by decide)
  · exact (get_zone_classification (ZoneDetector.init 900 3) ⟨100, 0, 201, 0⟩ 800).2.1
      (by decide) (by decide)
  · exact (get_zone_classification (ZoneDetector.init 900 3) ⟨100, 0, 201, 0⟩ 450).2.2.1
      (by decide) (by decide)
  · exact (get_zone_classification (ZoneDetector.init 900 3) ⟨100, 0, 201, 0⟩ 450).2.2.2.1

/-- C5: for every nonnegative frame width W the boundaries computed by
update_boundaries are W // 3 and 2 * W // 3 and satisfy
0 ≤ left ≤ right ≤ W, and the classifier always returns exactly one of the
three pairwise distinct zones. -/
theorem zone_boundaries_invariant (s0 s : ZoneDetector) (W c : Int) (hW : 0 ≤ W) :
    (0 ≤ (update_boundaries s0 W).left_boundary ∧
     (update_boundaries s0 W).left_boundary ≤ (update_boundaries s0 W).right_boundary ∧
     (update_boundaries s0 W).right_boundary ≤ W) ∧
    (update_boundaries s0 W).left_boundary = Int.fdiv W 3 ∧
    (update_boundaries s0 W).right_boundary = Int.fdiv (2 * W) 3 ∧
    (get_zone s none (some c) = Zone.gauche ∨
     get_zone s none (some c) = Zone.milieu ∨
     get_zone s none (some c) = Zone.droite) ∧
    Zone.gauche ≠ Zone.milieu ∧ Zone.milieu ≠ Zone.droite ∧
    Zone.gauche ≠ Zone.droite := by
  refine ⟨?_, rfl, rfl, ?_, by decide, by decide, by decide⟩
  · simp only [update_boundaries]
    rw [Int.fdiv_eq_ediv _ (by decide), Int.fdiv_eq_ediv _ (by decide)]
    omega
  · simp only [get_zone]
    by_cases h1 : c < s.left_boundary
    · simp [h1]
    · by_cases h2 : c > s.right_boundary
      · simp [h1, h2]
      · simp [h1, h2]

/-- C5 witness: the invariant at frame width 900 and center 450. -/
theorem zone_boundaries_invariant_witness :
    (0 ≤ (update_boundaries (ZoneDetector.init 900 3) 900).left_boundary ∧
     (update_boundaries (ZoneDetector.init 900 3) 900).left_boundary
       ≤ (update_boundaries (ZoneDetector.init 900 3) 900).right_boundary ∧
     (update_boundaries (ZoneDetector.init 900 3) 900).right_boundary ≤ 900) ∧
    (update_boundaries (ZoneDetector.init 900 3) 900).left_boundary = Int.fdiv 900 3 ∧
    (update_boundaries (ZoneDetector.init 900 3) 900).right_boundary
      = Int.fdiv (2 * 900) 3 ∧
    (get_zone (ZoneDetector.init 900 3) none (some 450) = Zone.gauche ∨
     get_zone (ZoneDetector.init 900 3) none (some 450) = Zone.milieu ∨
     get_zone (ZoneDetector.init 900 3) none (some 450) = Zone.droite) ∧
    Zone.gauche ≠ Zone.milieu ∧ Zone.milieu ≠ Zone.droite ∧
    Zone.gauche ≠ Zone.droite :=
  zone_boundaries_invariant (ZoneDetector.init 900 3) (ZoneDetector.init 900 3)
    900 450 (by decide)

/-! ### Claims about the video processor thread and the recorder -/

/-- C6: in the running read loop, a failed frame read on a file source rewinds
the capture to frame 0 and continues the loop, while on a live source (webcam
or external camera) it ends the loop with the stream-ended reason; and for
every event trace — exceptions included — a run that opened its capture ends
with the capture released and the running flag cleared. -/
theorem run_read_failure_and_release :
    (∀ (es : List StreamEvent) (emitted pos : Nat),
        run_loop SourceType.file (StreamEvent.readFailure :: es) emitted pos
          = run_loop SourceType.file es emitted 0) ∧
    (∀ (st : SourceType) (es : List StreamEvent) (emitted pos : Nat),
        st ≠ SourceType.file →
        run_loop st (StreamEvent.readFailure :: es) emitted pos
          = ⟨ExitReason.streamEnded, emitted, pos⟩) ∧
    (∀ (st : SourceType) (events : List StreamEvent),
        (run_thread st true events).cap_released = true ∧
        (run_thread st true events).running = false) := by
  refine ⟨?_, ?_, ?_⟩
  · intro es emitted pos
    simp [run_loop, handle_read_failure]
  · intro st es emitted pos h
    simp [run_loop, handle_read_failure, h]
  · intro st events
    simp [run_thread]

/-- C6 witness: a file source hitting a read failure continues at frame 0, a
webcam hitting one exits with the stream-ended reason, and runs ending in an
exception still release the capture. -/
theorem run_read_failure_and_release_witness :
    run_loop SourceType.file (StreamEvent.readFailure :: List.nil) 2 7
      = run_loop SourceType.file List.nil 2 0 ∧
    run_loop SourceType.webcam (StreamEvent.readFailure :: List.nil) 2 7
      = ⟨ExitReason.streamEnded, 2, 7⟩ ∧
    (run_thread SourceType.webcam true
        (StreamEvent.frameRead :: StreamEvent.exceptionRaised :: List.nil)).cap_released
      = true := by
  refine ⟨?_, ?_, ?_⟩
  · exact run_read_failure_and_release.1 List.nil 2 7
  · exact run_read_failure_and_release.2.1 SourceType.webcam List.nil 2 7 (by decide)
  · exact (run_read_failure_and_release.2.2 SourceType.webcam
      (StreamEvent.frameRead :: StreamEvent.exceptionRaised :: List.nil)).1

def rec_out_path : String := "recording_a.mp4"

def rec_new_path : String := "recording_b.mp4"

def rec_active_state : RecorderState :=
  { writer := some (), output_path := some rec_out_path, is_recording_flag := true,
    frame_count := 3, start_time := some 0 }

def rec_idle_state : RecorderState :=
  { writer := none, output_path := none, is_recording_flag := false,
    frame_count := 0, start_time := none }

/-- C7: session exclusivity of the recorder — start_recording while a session
is active returns the existing output path and the entire state (writer
included) unchanged, and stop_recording while no session is active returns the
null result (none, 0, 0) without error, changing nothing. -/
theorem recorder_session_exclusivity :
    (∀ (s : RecorderState) (p : String) (now : Int) (opens : Bool),
        s.is_recording_flag = true →
        start_recording s p now opens = Except.ok (s.output_path, s)) ∧
    (∀ (s : RecorderState) (now : Int),
        s.is_recording_flag = false →
        stop_recording s now = ((none, 0, 0), s)) := by
  constructor
  · intro s p now opens h
    simp [start_recording, h]
  · intro s now h
    simp [stop_recording, h]

/-- C7 witness: starting on an active session returns its existing path and
state; stopping the idle recorder returns the null result. -/
theorem recorder_session_exclusivity_witness :
    start_recording rec_active_state rec_new_path 7 true
      = Except.ok (rec_active_state.output_path, rec_active_state) ∧
    stop_recording rec_idle_state 9 = ((none, 0, 0), rec_idle_state) :=
  ⟨recorder_session_exclusivity.1 rec_active_state rec_new_path 7 true rfl,
   recorder_session_exclusivity.2 rec_idle_state 9 rfl⟩

/-- C8: write_frame is a total boolean-returning operation — it returns false
with the state unchanged when no recording is active or no writer exists,
returns true and increments the frame count by exactly one on a successful
write, and returns false with the state unchanged when the underlying write
fails; no case propagates an exception to the caller. -/
theorem write_frame_never_raises (s : RecorderState) (b : Bool) :
    (s.is_recording_flag = false ∨ s.writer = none →
        write_frame s b = (false, s)) ∧
    (s.is_recording_flag = true → s.writer = some () → b = true →
        write_frame s b = (true, { s with frame_count := s.frame_count + 1 })) ∧
    (s.is_recording_flag = true → s.writer = some () → b = false →
        write_frame s b = (false, s)) := by
  refine ⟨?_, ?_, ?_⟩
  · intro h
    simp [write_frame, h]
  · intro h1 h2 h3
    simp [write_frame, h1, h2, h3]
  · intro h1 h2 h3
    simp [write_frame, h1, h2, h3]

/-- C8 witness: on the idle recorder a write returns false and changes
nothing; on the active recorder a successful write returns true and bumps the
count from 3 to 4, and a failing write returns false and changes nothing. -/
theorem write_frame_never_raises_witness :
    write_frame rec_idle_state true = (false, rec_idle_state) ∧
    write_frame rec_active_state true
      = (true, { rec_active_state with frame_count := rec_active_state.frame_count + 1 }) ∧
    write_frame rec_active_state false = (false, rec_active_state) :=
  ⟨(write_frame_never_raises rec_idle_state true).1 (Or.inl rfl),
   (write_frame_never_raises rec_active_state true).2.1 rfl rfl rfl,
   (write_frame_never_raises rec_active_state false).2.2 rfl rfl rfl⟩

/-- C9: the per-frame FPS update divides only behind the strictly-positive
guard — when the wall-clock delta since the previous frame is nonpositive the
frame rate is left unchanged and nothing is emitted, and when it is strictly
positive the rate becomes the reciprocal of the delta and is emitted. -/
theorem update_fps_division_guard (s : FpsState) (current_time : Int) :
    (current_time - s.last_time ≤ 0 →
        (update_fps s current_time).1.frame_rate = s.frame_rate ∧
        (update_fps s current_time).2 = none) ∧
    (0 < current_time - s.last_time →
        (update_fps s current_time).1.frame_rate
          = 1 / ((current_time - s.last_time : Int) : ℚ) ∧
        (update_fps s current_time).2
          = some (1 / ((current_time - s.last_time : Int) : ℚ))) := by
  constructor
  · intro h
    have hg : ¬ current_time - s.last_time > 0 := by omega
    simp [update_fps, hg]
  · intro h
    simp [update_fps, h]

/-- C9 witness: from frame rate 7 at last time 5, the update at time 5
(delta 0) keeps the rate 7 and emits nothing; the update at time 6 (delta 1)
sets and emits the reciprocal of the delta. -/
theorem update_fps_division_guard_witness :
    ((update_fps { frame_rate := 7, last_time := 5, frame_count := 0 } 5).1.frame_rate
        = 7 ∧
     (update_fps { frame_rate := 7, last_time := 5, frame_count := 0 } 5).2 = none) ∧
    ((update_fps { frame_rate := 7, last_time := 5, frame_count := 0 } 6).1.frame_rate
        = 1 / ((6 - 5 : Int) : ℚ) ∧
     (update_fps { frame_rate := 7, last_time := 5, frame_count := 0 } 6).2
        = some (1 / ((6 - 5 : Int) : ℚ))) :=
  ⟨(update_fps_division_guard { frame_rate := 7, last_time := 5, frame_count := 0 } 5).1
      (by decide),
   (update_fps_division_guard { frame_rate := 7, last_time := 5, frame_count := 0 } 6).2
      (by decide)⟩
